import Mathlib

/-
Verification of the Pong frame-update engine, the joystick direction
discretizer and the indexed framebuffer driver.

Shallow embedding conventions:
  int16_t fields are modelled as unbounded integers: C promotes them to int
  before arithmetic, and every theorem below keeps values far inside the
  int16 range, where the model and the machine agree.
  uint8_t and uint32_t values whose wraparound the code relies on
  (the lives counter, the HAL tick) are modelled as naturals reduced mod
  2^8 and 2^32 at the points where the C code converts.
  float values are modelled as rationals; the only float operations the
  code performs are multiplication by the literal 0.707, negation and
  truncating casts to int16_t, all order-exact in this range.
-/

namespace Pong

/-- Truncation toward zero of a rational, the semantics of a C cast from
float to a signed integer type. -/
def truncQ (q : ℚ) : ℤ := Int.tdiv q.num (q.den : ℤ)

/-- The literal 0.707 used by Ball.c and PongEngine.c for cos 45. -/
def c707 : ℚ := 707 / 1000

def SCREEN_WIDTH : ℤ := 240
def SCREEN_HEIGHT : ℤ := 240

/-- Vector2D from Joystick.h: two float components. -/
structure Vector2D where
  x : ℚ
  y : ℚ
deriving DecidableEq, Repr

/-- Position2D from Utils.h. -/
structure Position2D where
  x : ℤ
  y : ℤ
deriving DecidableEq, Repr

/-- AABB from Utils.h. -/
structure AABB where
  x : ℤ
  y : ℤ
  width : ℤ
  height : ℤ
deriving DecidableEq, Repr

/-- AABB_Collides from Utils.h. -/
def AABB_Collides (a b : AABB) : Bool :=
  decide (a.x < b.x + b.width) && decide (a.x + a.width > b.x) &&
  decide (a.y < b.y + b.height) && decide (a.y + a.height > b.y)

/-- Direction from Joystick.h. -/
inductive Direction where
  | CENTRE | N | NE | E | SE | S | SW | W | NW
deriving DecidableEq, Repr

/-- UserInput from Joystick.h. -/
structure UserInput where
  direction : Direction
  magnitude : ℚ
  angle : ℚ
deriving DecidableEq, Repr

/-- Joystick_GetDirection from Joystick.c: centre on invalid angle or small
magnitude, otherwise 45-degree buckets starting at 22.5 degrees. -/
def Joystick_GetDirection (angle magnitude : ℚ) : Direction :=
  if angle < 0 ∨ magnitude < 5 / 100 then .CENTRE
  else if angle ≥ 3375 / 10 ∨ angle < 225 / 10 then .N
  else if angle ≥ 225 / 10 ∧ angle < 675 / 10 then .NE
  else if angle ≥ 675 / 10 ∧ angle < 1125 / 10 then .E
  else if angle ≥ 1125 / 10 ∧ angle < 1575 / 10 then .SE
  else if angle ≥ 1575 / 10 ∧ angle < 2025 / 10 then .S
  else if angle ≥ 2025 / 10 ∧ angle < 2475 / 10 then .SW
  else if angle ≥ 2475 / 10 ∧ angle < 2925 / 10 then .W
  else .NW

/-- Ball_t from Ball.h. -/
structure Ball_t where
  x : ℤ
  y : ℤ
  size : ℤ
  velocity : Vector2D
deriving DecidableEq, Repr

/-- Ball_Init from Ball.c: centre the ball, velocity on the 45-degree
diagonal down and to the right. -/
def Ball_Init (size : ℤ) (speed : ℚ) : Ball_t :=
  { x := Int.tdiv (SCREEN_WIDTH - size) 2
    y := Int.tdiv (SCREEN_HEIGHT - size) 2
    size := size
    velocity := ⟨speed * c707, speed * c707⟩ }

/-- Ball_Update from Ball.c: position advances by the velocity truncated to
integer pixels. -/
def Ball_Update (b : Ball_t) : Ball_t :=
  { b with x := b.x + truncQ b.velocity.x, y := b.y + truncQ b.velocity.y }

def Ball_GetAABB (b : Ball_t) : AABB := ⟨b.x, b.y, b.size, b.size⟩

def Ball_SetVelocity (b : Ball_t) (vx vy : ℚ) : Ball_t :=
  { b with velocity := ⟨vx, vy⟩ }

def Ball_SetPos (b : Ball_t) (pos : Position2D) : Ball_t :=
  { b with x := pos.x, y := pos.y }

/-- Paddle_t from Paddle.h. -/
structure Paddle_t where
  x : ℤ
  y : ℤ
  width : ℤ
  height : ℤ
  speed : ℤ
  score : ℕ
deriving DecidableEq, Repr

/-- Paddle_Init from Paddle.c. -/
def Paddle_Init (x y width height speed : ℤ) : Paddle_t :=
  { x := x, y := y, width := width, height := height, speed := speed, score := 0 }

/-- Paddle_Update from Paddle.c: move by speed on an up or down direction,
then clamp the top edge to 0 and the bottom edge to the screen height. -/
def Paddle_Update (p : Paddle_t) (input : UserInput) : Paddle_t :=
  let y1 :=
    if input.direction = .N ∨ input.direction = .NE ∨ input.direction = .NW then
      p.y - p.speed
    else if input.direction = .S ∨ input.direction = .SE ∨ input.direction = .SW then
      p.y + p.speed
    else p.y
  let y2 := if y1 < 0 then 0 else y1
  let y3 := if y2 + p.height > SCREEN_HEIGHT then SCREEN_HEIGHT - p.height else y2
  { p with y := y3 }

def Paddle_GetAABB (p : Paddle_t) : AABB := ⟨p.x, p.y, p.width, p.height⟩

def Paddle_AddScore (p : Paddle_t) : Paddle_t := { p with score := p.score + 1 }

/-- Random_U16 from Utils.h: the RNG draw is an oracle value, none when the
HAL call fails (the function then returns 0); otherwise the 32-bit draw
reduced mod max.  The C cast to uint16_t is the identity here because
max is a uint16 and the result is below it. -/
def Random_U16 (r : Option ℕ) (mx : ℕ) : ℕ :=
  match r with
  | none => 0
  | some rnd => if mx = 0 then 0 else (rnd % 2 ^ 32) % mx

/-- Modulus of a uint32. -/
def u32 : ℕ := 2 ^ 32

/-- Wrapping uint32 subtraction a - b. -/
def usub32 (a b : ℕ) : ℕ := (a % u32 + (u32 - b % u32)) % u32

/-- Buzzer_cfg_t from Buzzer.h, reduced to the fields buzzer_tone reads. -/
structure Buzzer_cfg_t where
  min_freq_hz : ℕ
  max_freq_hz : ℕ
deriving DecidableEq, Repr

/-- Observable PWM tone state of the buzzer driver. -/
structure BuzzerState where
  pwm_started : Bool
  freq : ℕ
  volume : ℕ
deriving DecidableEq, Repr

/-- clamp_u32 from Buzzer.c. -/
def clamp_u32 (x lo hi : ℕ) : ℕ := if x < lo then lo else if x > hi then hi else x

/-- buzzer_off from Buzzer.c: the tone stops. -/
def buzzer_off (s : BuzzerState) : BuzzerState := { s with pwm_started := false }

/-- buzzer_tone from Buzzer.c: zero volume or zero frequency turns the tone
off, otherwise the tone starts at the frequency clamped to the configured
range. -/
def buzzer_tone (cfg : Buzzer_cfg_t) (s : BuzzerState) (freq_hz volume_percent : ℕ) :
    BuzzerState :=
  if volume_percent = 0 ∨ freq_hz = 0 then buzzer_off s
  else
    { pwm_started := true
      freq := clamp_u32 freq_hz cfg.min_freq_hz cfg.max_freq_hz
      volume := volume_percent }

/-- The audio state owned by PongEngine.c: the buzzer plus the static
buzzer_stop_tick deadline. -/
structure AudioState where
  buzzer : BuzzerState
  stop_tick : ℕ
deriving DecidableEq, Repr

def BUZZER_WALL_FREQ_HZ : ℕ := 1200
def BUZZER_PADDLE_FREQ_HZ : ℕ := 800
def BUZZER_VOLUME : ℕ := 50
def BUZZER_BEEP_MS : ℕ := 40

/-- PongEngine_Beep from PongEngine.c: start the tone at volume 50 and
record the absolute stop deadline now + 40 ms in uint32 arithmetic.
The current HAL tick is passed in as the parameter now. -/
def PongEngine_Beep (cfg : Buzzer_cfg_t) (now : ℕ) (freq_hz : ℕ) (a : AudioState) :
    AudioState :=
  { buzzer := buzzer_tone cfg a.buzzer freq_hz BUZZER_VOLUME
    stop_tick := (now + BUZZER_BEEP_MS) % u32 }

/-- PongEngine_UpdateBuzzer from PongEngine.c: when armed and the signed
32-bit difference now - stop_tick is nonnegative, silence the tone and
disarm. -/
def PongEngine_UpdateBuzzer (now : ℕ) (a : AudioState) : AudioState :=
  if a.stop_tick ≠ 0 ∧ usub32 now a.stop_tick < 2 ^ 31 then
    { buzzer := buzzer_off a.buzzer, stop_tick := 0 }
  else a

/-- PongEngine_t from PongEngine.h.  The lives field is a uint8; the model
keeps it below 256 and performs the wrapping reduction where the C code
converts. -/
structure PongEngine_t where
  ball : Ball_t
  paddle : Paddle_t
  lives : ℕ
deriving DecidableEq, Repr

/-- PongEngine_CheckWallCollision from PongEngine.c.  The velocity vel is
read once at entry, exactly as in the source, so the right-wall branch uses
the velocity from before any top or bottom bounce. -/
def PongEngine_CheckWallCollision (cfg : Buzzer_cfg_t) (now : ℕ)
    (e : PongEngine_t) (a : AudioState) : PongEngine_t × AudioState :=
  let ball := e.ball
  let vel := ball.velocity
  let ba1 : Ball_t × AudioState :=
    if ball.y ≤ 0 then
      (Ball_SetVelocity { ball with y := 2 } vel.x (-vel.y),
       PongEngine_Beep cfg now BUZZER_WALL_FREQ_HZ a)
    else if ball.y + ball.size ≥ SCREEN_HEIGHT then
      (Ball_SetVelocity { ball with y := SCREEN_HEIGHT - ball.size - 2 } vel.x (-vel.y),
       PongEngine_Beep cfg now BUZZER_WALL_FREQ_HZ a)
    else (ball, a)
  let ba2 : Ball_t × AudioState :=
    if ba1.1.x + ba1.1.size ≥ SCREEN_WIDTH then
      (Ball_SetVelocity { ba1.1 with x := SCREEN_WIDTH - ba1.1.size - 2 } (-vel.x) vel.y,
       PongEngine_Beep cfg now BUZZER_WALL_FREQ_HZ ba1.2)
    else ba1
  ({ e with ball := ba2.1 }, ba2.2)

/-- PongEngine_CheckPaddleCollision from PongEngine.c: on AABB overlap,
reverse the horizontal velocity, move the ball to the right edge of the
paddle, increment the score and beep. -/
def PongEngine_CheckPaddleCollision (cfg : Buzzer_cfg_t) (now : ℕ)
    (e : PongEngine_t) (a : AudioState) : PongEngine_t × AudioState :=
  let ball := e.ball
  let paddle := e.paddle
  let vel := ball.velocity
  let ball_box := Ball_GetAABB ball
  let paddle_box := Paddle_GetAABB paddle
  if AABB_Collides ball_box paddle_box then
    let ball := Ball_SetVelocity ball (-vel.x) vel.y
    let ball := { ball with x := paddle_box.x + paddle_box.width }
    ({ e with ball := ball, paddle := Paddle_AddScore paddle },
     PongEngine_Beep cfg now BUZZER_PADDLE_FREQ_HZ a)
  else (e, a)

def BALL_RESET_OFFSET : ℤ := 20

/-- PongEngine_CheckGoal from PongEngine.c: past the left edge, decrement
the uint8 lives counter, reposition the ball near the centre with an
independent random offset per axis, and reset the velocity to the fixed
rightward 45-degree diagonal at base speed 8. -/
def PongEngine_CheckGoal (r1 r2 : Option ℕ) (e : PongEngine_t) : PongEngine_t :=
  let ball := e.ball
  if ball.x < 0 then
    let lives := (e.lives + 255) % 256
    let cx := Int.tdiv (SCREEN_WIDTH - ball.size) 2
    let cy := Int.tdiv (SCREEN_HEIGHT - ball.size) 2
    let dx : ℤ := (Random_U16 r1 (2 * 20 + 1) : ℤ) - BALL_RESET_OFFSET
    let dy : ℤ := (Random_U16 r2 (2 * 20 + 1) : ℤ) - BALL_RESET_OFFSET
    let ball := Ball_SetPos ball ⟨cx + dx, cy + dy⟩
    let ball := Ball_SetVelocity ball (8 * c707) (8 * c707)
    { e with ball := ball, lives := lives }
  else e

/-- PongEngine_Init from PongEngine.c: ball at centre, paddle with speed 6,
four lives. -/
def PongEngine_Init (paddle_x paddle_y paddle_width paddle_height ball_size : ℤ)
    (ball_speed : ℚ) : PongEngine_t :=
  { ball := Ball_Init ball_size ball_speed
    paddle := Paddle_Init paddle_x paddle_y paddle_width paddle_height 6
    lives := 4 }

/-- Steps 1 to 3 of PongEngine_Update: paddle update, ball update, wall and
paddle collision checks. -/
def PongEngine_StepPhysics (cfg : Buzzer_cfg_t) (now : ℕ) (input : UserInput)
    (e : PongEngine_t) (a : AudioState) : PongEngine_t × AudioState :=
  let e := { e with paddle := Paddle_Update e.paddle input }
  let e := { e with ball := Ball_Update e.ball }
  let ea := PongEngine_CheckWallCollision cfg now e a
  PongEngine_CheckPaddleCollision cfg now ea.1 ea.2

/-- PongEngine_Update from PongEngine.c: physics steps, goal check, buzzer
timer update; returns the new state and the remaining lives.  The HAL tick
now and the two RNG draws r1 r2 of the frame are oracle parameters. -/
def PongEngine_Update (cfg : Buzzer_cfg_t) (now : ℕ) (r1 r2 : Option ℕ)
    (input : UserInput) (e : PongEngine_t) (a : AudioState) :
    (PongEngine_t × AudioState) × ℕ :=
  let ea := PongEngine_StepPhysics cfg now input e a
  let e := PongEngine_CheckGoal r1 r2 ea.1
  let a := PongEngine_UpdateBuzzer now ea.2
  ((e, a), e.lives)

/-- Per-frame oracle inputs of one PongEngine_Update call. -/
structure Frame where
  input : UserInput
  now : ℕ
  r1 : Option ℕ
  r2 : Option ℕ

/-- Run PongEngine_Update over a list of frames. -/
def PongEngine_Run (cfg : Buzzer_cfg_t) :
    List Frame → PongEngine_t × AudioState → PongEngine_t × AudioState
  | [], ea => ea
  | f :: fs, ea => PongEngine_Run cfg fs (PongEngine_Update cfg f.now f.r1 f.r2 f.input ea.1 ea.2).1

/-- Squared magnitude of the velocity of the ball. -/
def velMagSq (e : PongEngine_t) : ℚ :=
  e.ball.velocity.x ^ 2 + e.ball.velocity.y ^ 2

/-- Both velocity components sit on the fixed base-speed diagonal, up to
sign. -/
def DiagVel (e : PongEngine_t) : Prop :=
  (e.ball.velocity.x = 8 * c707 ∨ e.ball.velocity.x = -(8 * c707)) ∧
  (e.ball.velocity.y = 8 * c707 ∨ e.ball.velocity.y = -(8 * c707))

def ST7789V2_WIDTH : ℕ := 240
def ST7789V2_HEIGHT : ℕ := 240

/-- BUFFER_LENGTH from LCD.h: two 4-bit pixels per byte. -/
def BUFFER_LENGTH : ℕ := ST7789V2_HEIGHT * ST7789V2_WIDTH / 2

/-- LCD_Palette selector from LCD.h. -/
inductive LCD_Palette where
  | PALETTE_DEFAULT | PALETTE_GREYSCALE | PALETTE_VINTAGE | PALETTE_CUSTOM
deriving DecidableEq, Repr

/-- palette_default from LCD.c: the sixteen byte-swapped RGB565 entries. -/
def palette_default : List ℕ :=
  [0x0000, 0xFFFF, 0x00F8, 0xE007, 0x1F00, 0x20FD, 0xE0FF, 0x18FC,
   0x0F78, 0x0F00, 0xA0FE, 0x5C91, 0x45A1, 0x1084, 0xFF07, 0x1FF8]

/-- palette_greyscale from LCD.c. -/
def palette_greyscale : List ℕ :=
  [0x0000, 0xC318, 0x4529, 0xC739, 0x2842, 0xAA52, 0x2C63, 0x8E73,
   0xEF7B, 0x718C, 0xD39C, 0x55AD, 0xF7BD, 0x9AD6, 0x3CE7, 0xFFFF]

/-- palette_vintage from LCD.c. -/
def palette_vintage : List ℕ :=
  [0x0000, 0xF39C, 0xFFFF, 0x26B9, 0x71E3, 0xE549, 0x24A3, 0x46EC,
   0x0DF7, 0x492A, 0x4344, 0x64A6, 0x2619, 0xB002, 0x1E35, 0xFDB6]

/-- palette_custom from LCD.c. -/
def palette_custom : List ℕ :=
  [0x0000, 0xF8A7, 0xA93D, 0x5FD8, 0xB6F5, 0x3804, 0xE8B9, 0x7D86,
   0xD9FD, 0x7D86, 0xFF07, 0x24A3, 0x5AF8, 0xBE44, 0xD244, 0xBE44]

/-- The static state of LCD.c: the packed image buffer, the dirty-row
array and the active palette pointer.  The oob flag records that an array
write outside the declared bounds occurred, which in the C source is an
out-of-bounds store into a static array. -/
structure LCDState where
  image_buffer : ℕ → ℕ
  track_changes : ℕ → Bool
  colour_map : List ℕ
  oob : Bool

/-- Bounds-checked model of a store into track_changes: an index past the
ST7789V2_HEIGHT entries is an out-of-bounds write. -/
def trackWrite (y : ℕ) (s : LCDState) : LCDState :=
  if y < ST7789V2_HEIGHT then
    { s with track_changes := fun r => if r = y then true else s.track_changes r }
  else { s with oob := true }

/-- Bounds-checked model of a store into image_buffer. -/
def bufWrite (i v : ℕ) (s : LCDState) : LCDState :=
  if i < BUFFER_LENGTH then
    { s with image_buffer := fun j => if j = i then v % 256 else s.image_buffer j }
  else { s with oob := true }

/-- LCD_Set_Pixel from LCD.c.  Faithful to the source order: the dirty-row
mark track_changes with index y happens before the bounds check; the byte
index is a uint16; the packed nibble store is guarded by the bounds
check. -/
def LCD_Set_Pixel (x y colour : ℕ) (s : LCDState) : LCDState :=
  let s := trackWrite y s
  let index := ((ST7789V2_WIDTH * y + x) >>> 1) % 2 ^ 16
  if x < ST7789V2_WIDTH ∧ y < ST7789V2_HEIGHT then
    if x % 2 = 1 then
      bufWrite index ((colour <<< 4) ||| (s.image_buffer index &&& 0x0F)) s
    else
      bufWrite index (colour ||| (s.image_buffer index &&& 0xF0)) s
  else s

/-- LCD_Get_Pixel from LCD.c, including its linear index x * y taken
verbatim from the source. -/
def LCD_Get_Pixel (x y : ℕ) (s : LCDState) : ℕ :=
  let pixel := (x * y) % 2 ^ 16
  if pixel &&& 0x1 = 1 then (s.image_buffer (pixel >>> 1) &&& 0xF0) >>> 4
  else s.image_buffer (pixel >>> 1) &&& 0x0F

/-- The palette table each LCD_Palette selector resolves to in
LCD_Set_Palette. -/
def paletteTable (palette : LCD_Palette) : List ℕ :=
  match palette with
  | .PALETTE_GREYSCALE => palette_greyscale
  | .PALETTE_VINTAGE => palette_vintage
  | .PALETTE_CUSTOM => palette_custom
  | .PALETTE_DEFAULT => palette_default

/-- LCD_Set_Palette from LCD.c: swap the active palette pointer and mark
every row dirty. -/
def LCD_Set_Palette (palette : LCD_Palette) (s : LCDState) : LCDState :=
  { s with
    colour_map := paletteTable palette
    track_changes := fun y => if y < ST7789V2_HEIGHT then true else s.track_changes y }

/-- Reset state of the LCD statics: zeroed buffer, clean rows, default
palette. -/
def LCD_initial : LCDState :=
  { image_buffer := fun _ => 0
    track_changes := fun _ => false
    colour_map := palette_default
    oob := false }

/-- Specification accessor, not part of the source: the 4-bit cell of the
pixel at x y under the packed row-major layout LCD_Set_Pixel writes. -/
def cellAt (s : LCDState) (x y : ℕ) : ℕ :=
  let index := ((ST7789V2_WIDTH * y + x) >>> 1) % 2 ^ 16
  if x % 2 = 1 then (s.image_buffer index &&& 0xF0) >>> 4
  else s.image_buffer index &&& 0x0F

/-- Iterated paddle updates over a list of inputs. -/
def Paddle_UpdateSeq (l : List UserInput) (p : Paddle_t) : Paddle_t :=
  l.foldl Paddle_Update p

/-- A concrete buzzer configuration used by concrete evaluations below. -/
def cfg0 : Buzzer_cfg_t := ⟨100, 10000⟩

/-- Silent initial audio state. -/
def a0 : AudioState := ⟨⟨false, 0, 0⟩, 0⟩

/-- Centred joystick input. -/
def inC : UserInput := ⟨.CENTRE, 0, -1⟩

/-- Engine state whose ball touches the top wall and the right wall in the
same frame. -/
def eC1 : PongEngine_t :=
  { ball := { x := 235, y := 0, size := 10, velocity := ⟨3, 5⟩ }
    paddle := Paddle_Init 200 10 10 40 6
    lives := 4 }

/-- Engine state whose ball touches only the top wall. -/
def eC1w : PongEngine_t :=
  { ball := { x := 100, y := -1, size := 10, velocity := ⟨3, 5⟩ }
    paddle := Paddle_Init 200 10 10 40 6
    lives := 4 }

/-- A paddle taller than the screen. -/
def pC2 : Paddle_t := { x := 10, y := 0, width := 5, height := 300, speed := 6, score := 0 }

/-- A paddle that fits the screen. -/
def pC2w : Paddle_t := Paddle_Init 10 100 10 40 6

/-- Engine state whose ball crosses the left edge this frame, far away from
the paddle. -/
def eC3 : PongEngine_t :=
  { ball := { x := 4, y := 100, size := 10, velocity := ⟨-707 / 125, 0⟩ }
    paddle := Paddle_Init 200 10 10 40 6
    lives := 4 }

/-- Engine state whose ball crosses the left edge this frame while
overlapping the paddle box. -/
def eC3cex : PongEngine_t :=
  { ball := { x := 4, y := 100, size := 10, velocity := ⟨-707 / 125, 0⟩ }
    paddle := { x := -20, y := 90, width := 30, height := 40, speed := 0, score := 0 }
    lives := 4 }

/-- Engine initialised with ball speed -320, so that the very first update
scores a goal. -/
def eC4 : PongEngine_t := PongEngine_Init 200 10 10 40 10 (-320)

/-- Engine state at zero lives whose ball crosses the left edge this
frame. -/
def eC5 : PongEngine_t :=
  { ball := { x := 4, y := 100, size := 10, velocity := ⟨-707 / 125, 0⟩ }
    paddle := Paddle_Init 200 10 10 40 6
    lives := 0 }

theorem Paddle_Update_height (p : Paddle_t) (i : UserInput) :
    (Paddle_Update p i).height = p.height := rfl

theorem Paddle_Update_width (p : Paddle_t) (i : UserInput) :
    (Paddle_Update p i).width = p.width := rfl

theorem Paddle_Update_bounds (p : Paddle_t) (i : UserInput) (hh : p.height ≤ 240) :
    0 ≤ (Paddle_Update p i).y ∧ (Paddle_Update p i).y + p.height ≤ 240 := by
  simp only [Paddle_Update, SCREEN_HEIGHT]
  split_ifs <;> constructor <;> omega

theorem Paddle_UpdateSeq_height (l : List UserInput) (p : Paddle_t) :
    (Paddle_UpdateSeq l p).height = p.height := by
  induction l generalizing p with
  | nil => rfl
  | cons i l ih => simpa [Paddle_UpdateSeq, List.foldl] using ih (Paddle_Update p i)

theorem Paddle_UpdateSeq_width (l : List UserInput) (p : Paddle_t) :
    (Paddle_UpdateSeq l p).width = p.width := by
  induction l generalizing p with
  | nil => rfl
  | cons i l ih => simpa [Paddle_UpdateSeq, List.foldl] using ih (Paddle_Update p i)

/-- C2 (corrected): for a paddle whose height fits the 240-pixel screen,
after every update in any nonempty sequence of Paddle_Update calls the
paddle satisfies 0 ≤ y and y + height ≤ 240, and updates never change the
width or the height. -/
theorem paddle_clamp_invariant (p : Paddle_t) (l : List UserInput)
    (hh : p.height ≤ 240) (hl : l ≠ []) :
    0 ≤ (Paddle_UpdateSeq l p).y ∧
    (Paddle_UpdateSeq l p).y + (Paddle_UpdateSeq l p).height ≤ 240 ∧
    (Paddle_UpdateSeq l p).width = p.width ∧
    (Paddle_UpdateSeq l p).height = p.height := by
  induction l generalizing p with
  | nil => exact absurd rfl hl
  | cons i l ih =>
    by_cases hnil : l = []
    · subst hnil
      have hb := Paddle_Update_bounds p i hh
      refine ⟨hb.1, ?_, rfl, rfl⟩
      simpa [Paddle_UpdateSeq, List.foldl] using hb.2
    · have hh2 : (Paddle_Update p i).height ≤ 240 := by
        rw [Paddle_Update_height]; exact hh
      have := ih (Paddle_Update p i) hh2 hnil
      refine ⟨this.1, ?_, ?_, ?_⟩
      · simpa [Paddle_UpdateSeq, List.foldl] using this.2.1
      · simpa [Paddle_UpdateSeq, List.foldl, Paddle_Update_width] using this.2.2.1
      · simpa [Paddle_UpdateSeq, List.foldl, Paddle_Update_height] using this.2.2.2

/-- C2 witness: a concrete on-screen paddle and a one-element input list
satisfy the hypotheses and the clamp conclusion of the amended claim. -/
theorem paddle_clamp_invariant_witness :
    pC2w.height ≤ 240 ∧ ([inC] ≠ []) ∧
    (0 ≤ (Paddle_UpdateSeq [inC] pC2w).y ∧
     (Paddle_UpdateSeq [inC] pC2w).y + (Paddle_UpdateSeq [inC] pC2w).height ≤ 240 ∧
     (Paddle_UpdateSeq [inC] pC2w).width = pC2w.width ∧
     (Paddle_UpdateSeq [inC] pC2w).height = pC2w.height) :=
  ⟨by decide, by decide, paddle_clamp_invariant pC2w [inC] (by decide) (by decide)⟩

/-- C2 counterexample: a paddle of height 300 is a paddle state on which a
single update leaves the top edge at -60, so the claimed invariant fails
for unrestricted initial paddle states. -/
theorem paddle_tall_cex :
    (Paddle_Update pC2 inC).y = -60 ∧ ¬ (0 ≤ (Paddle_Update pC2 inC).y) := by
  decide

/-- C6 (corrected): the direction buckets are 45 degrees wide and start at
22.5 degrees, so with any magnitude at or above 0.05, angle 0 gives N,
angle 44 gives NE (not N as claimed), angle 46 gives NE and angle 359
gives N; any angle with magnitude 0.03 gives CENTRE. -/
theorem direction_bucketing (mag : ℚ) (hm : 5 / 100 ≤ mag) :
    Joystick_GetDirection 0 mag = .N ∧
    Joystick_GetDirection 44 mag = .NE ∧
    Joystick_GetDirection 46 mag = .NE ∧
    Joystick_GetDirection 359 mag = .N ∧
    ∀ angle : ℚ, Joystick_GetDirection angle (3 / 100) = .CENTRE := by
  have hm' : ¬ mag < 5 / 100 := not_lt.mpr hm
  refine ⟨?_, ?_, ?_, ?_, ?_⟩
  · rw [Joystick_GetDirection, if_neg (by push_neg; exact ⟨le_refl 0, hm⟩),
      if_pos (Or.inr (by norm_num))]
  · rw [Joystick_GetDirection, if_neg (by push_neg; exact ⟨by norm_num, hm⟩),
      if_neg (by push_neg; constructor <;> norm_num), if_pos (by norm_num)]
  · rw [Joystick_GetDirection, if_neg (by push_neg; exact ⟨by norm_num, hm⟩),
      if_neg (by push_neg; constructor <;> norm_num), if_pos (by norm_num)]
  · rw [Joystick_GetDirection, if_neg (by push_neg; exact ⟨by norm_num, hm⟩),
      if_pos (Or.inl (by norm_num))]
  · intro angle
    rw [Joystick_GetDirection, if_pos (Or.inr (by norm_num))]

/-- C6 witness: the amended bucketing instances at magnitude 1. -/
theorem direction_bucketing_witness :
    (5 / 100 : ℚ) ≤ 1 ∧
    (Joystick_GetDirection 0 1 = .N ∧
     Joystick_GetDirection 44 1 = .NE ∧
     Joystick_GetDirection 46 1 = .NE ∧
     Joystick_GetDirection 359 1 = .N ∧
     ∀ angle : ℚ, Joystick_GetDirection angle (3 / 100) = .CENTRE) :=
  ⟨by norm_num, direction_bucketing 1 (by norm_num)⟩

/-- C6 counterexample: at angle 44 with full magnitude the code returns NE,
not N as the claim states. -/
theorem direction_44_cex : Joystick_GetDirection 44 1 ≠ Direction.N := by
  with_unfolding_all decide

/-- C7 (code bug): writing colour 5 at coordinates x 1 y 0 and reading the
same coordinates back returns 0, because LCD_Get_Pixel indexes the packed
buffer with x times y instead of the row-major index; the specification
accessor shows the write itself landed in the correct cell. -/
theorem get_pixel_index_bug :
    LCD_Get_Pixel 1 0 (LCD_Set_Pixel 1 0 5 LCD_initial) = 0 ∧
    cellAt (LCD_Set_Pixel 1 0 5 LCD_initial) 1 0 = 5 := by
  constructor <;> decide

/-- C8 (code bug): LCD_Set_Pixel with y 240 marks the dirty-row array at
index 240 before the bounds check runs, an out-of-bounds store past the
240-entry array; the framebuffer itself is untouched. -/
theorem set_pixel_dirty_oob_bug :
    (LCD_Set_Pixel 0 240 5 LCD_initial).oob = true ∧
    (LCD_Set_Pixel 0 240 5 LCD_initial).image_buffer = LCD_initial.image_buffer ∧
    (LCD_Set_Pixel 0 240 5 LCD_initial).colour_map = LCD_initial.colour_map := by
  refine ⟨by decide, rfl, rfl⟩

/-- C1 (corrected): when the ball meets the top wall and does not also meet
the right wall in the same frame, the wall-collision step reflects the
velocity from a pre-collision value vx vy to vx, negated vy, clamps the
ball to the small positive offset 2, and triggers the wall audio cue. -/
theorem top_wall_reflection (cfg : Buzzer_cfg_t) (now : ℕ) (e : PongEngine_t)
    (a : AudioState) (hy : e.ball.y ≤ 0) (hx : e.ball.x + e.ball.size < SCREEN_WIDTH) :
    (PongEngine_CheckWallCollision cfg now e a).1.ball.velocity =
      ⟨e.ball.velocity.x, -e.ball.velocity.y⟩ ∧
    (PongEngine_CheckWallCollision cfg now e a).1.ball.y = 2 ∧
    (0 : ℤ) ≤ (PongEngine_CheckWallCollision cfg now e a).1.ball.y ∧
    (PongEngine_CheckWallCollision cfg now e a).2 =
      PongEngine_Beep cfg now BUZZER_WALL_FREQ_HZ a := by
  have hx240 : e.ball.x + e.ball.size < 240 := hx
  simp only [PongEngine_CheckWallCollision, Ball_SetVelocity, SCREEN_WIDTH, SCREEN_HEIGHT]
  split_ifs <;> first
    | exact ⟨rfl, rfl, by norm_num, rfl⟩
    | (dsimp only at *; omega)

/-- C1 witness: a state with the ball at the top wall only. -/
theorem top_wall_reflection_witness :
    (eC1w.ball.y ≤ 0 ∧ eC1w.ball.x + eC1w.ball.size < SCREEN_WIDTH) ∧
    ((PongEngine_CheckWallCollision cfg0 0 eC1w a0).1.ball.velocity =
       ⟨eC1w.ball.velocity.x, -eC1w.ball.velocity.y⟩ ∧
     (PongEngine_CheckWallCollision cfg0 0 eC1w a0).1.ball.y = 2 ∧
     (0 : ℤ) ≤ (PongEngine_CheckWallCollision cfg0 0 eC1w a0).1.ball.y ∧
     (PongEngine_CheckWallCollision cfg0 0 eC1w a0).2 =
       PongEngine_Beep cfg0 0 BUZZER_WALL_FREQ_HZ a0) :=
  ⟨⟨by decide, by decide⟩,
   top_wall_reflection cfg0 0 eC1w a0 (by decide) (by decide)⟩

/-- C1 counterexample: a ball meeting the top wall and the right wall in the
same frame leaves the wall-collision step with velocity negated vx, vy,
because the right-wall branch overwrites the vertical flip with the stale
pre-collision velocity, so the claimed velocity vx, negated vy fails. -/
theorem top_wall_corner_cex :
    eC1.ball.y ≤ 0 ∧
    (PongEngine_CheckWallCollision cfg0 0 eC1 a0).1.ball.velocity =
      ⟨-eC1.ball.velocity.x, eC1.ball.velocity.y⟩ ∧
    (PongEngine_CheckWallCollision cfg0 0 eC1 a0).1.ball.velocity ≠
      ⟨eC1.ball.velocity.x, -eC1.ball.velocity.y⟩ := by
  with_unfolding_all decide

theorem stepPhysics_lives (cfg : Buzzer_cfg_t) (now : ℕ) (input : UserInput)
    (e : PongEngine_t) (a : AudioState) :
    (PongEngine_StepPhysics cfg now input e a).1.lives = e.lives := by
  simp only [PongEngine_StepPhysics, PongEngine_CheckWallCollision,
    PongEngine_CheckPaddleCollision, Ball_SetVelocity, Ball_Update, Ball_GetAABB,
    Paddle_GetAABB, Paddle_AddScore]
  split_ifs <;> rfl

theorem stepPhysics_size (cfg : Buzzer_cfg_t) (now : ℕ) (input : UserInput)
    (e : PongEngine_t) (a : AudioState) :
    (PongEngine_StepPhysics cfg now input e a).1.ball.size = e.ball.size := by
  simp only [PongEngine_StepPhysics, PongEngine_CheckWallCollision,
    PongEngine_CheckPaddleCollision, Ball_SetVelocity, Ball_Update, Ball_GetAABB,
    Paddle_GetAABB, Paddle_AddScore]
  split_ifs <;> rfl

theorem Random_U16_lt (r : Option ℕ) (mx : ℕ) (h : 0 < mx) : Random_U16 r mx < mx := by
  cases r with
  | none => simpa [Random_U16] using h
  | some rnd =>
    simp only [Random_U16, if_neg (Nat.pos_iff_ne_zero.mp h)]
    exact Nat.mod_lt _ h

/-- C3 (corrected): if the ball is still past the left edge when the goal
check runs, that is the paddle-collision step of the same frame did not
reposition it, and lives is 4, then the update decrements lives to 3 and
returns 3, repositions the ball to within 20 pixels of the screen centre
on each axis using one RNG draw per axis, and resets the velocity to the
fixed rightward 45-degree diagonal. -/
theorem goal_reset_spec (cfg : Buzzer_cfg_t) (now : ℕ) (r1 r2 : Option ℕ)
    (input : UserInput) (e : PongEngine_t) (a : AudioState)
    (hx : (PongEngine_StepPhysics cfg now input e a).1.ball.x < 0)
    (hl : e.lives = 4) :
    (PongEngine_Update cfg now r1 r2 input e a).1.1.lives = 3 ∧
    (PongEngine_Update cfg now r1 r2 input e a).2 = 3 ∧
    |(PongEngine_Update cfg now r1 r2 input e a).1.1.ball.x -
      Int.tdiv (SCREEN_WIDTH - e.ball.size) 2| ≤ 20 ∧
    |(PongEngine_Update cfg now r1 r2 input e a).1.1.ball.y -
      Int.tdiv (SCREEN_HEIGHT - e.ball.size) 2| ≤ 20 ∧
    (PongEngine_Update cfg now r1 r2 input e a).1.1.ball.velocity =
      ⟨8 * c707, 8 * c707⟩ := by
  have hsz := stepPhysics_size cfg now input e a
  have hlv := stepPhysics_lives cfg now input e a
  have h1 : Random_U16 r1 (2 * 20 + 1) < 41 := Random_U16_lt r1 _ (by norm_num)
  have h2 : Random_U16 r2 (2 * 20 + 1) < 41 := Random_U16_lt r2 _ (by norm_num)
  simp only [PongEngine_Update, PongEngine_CheckGoal, Ball_SetPos, Ball_SetVelocity]
  rw [if_pos hx]
  refine ⟨?_, ?_, ?_, ?_, rfl⟩
  · simp only [hlv, hl]
  · simp only [hlv, hl]
  · simp only [hsz, BALL_RESET_OFFSET]
    rw [abs_le]
    constructor <;> omega
  · simp only [hsz, BALL_RESET_OFFSET]
    rw [abs_le]
    constructor <;> omega

/-- C3 witness: a frame in which the ball crosses the left edge far from
the paddle. -/
theorem goal_reset_spec_witness :
    ((PongEngine_StepPhysics cfg0 0 inC eC3 a0).1.ball.x < 0 ∧ eC3.lives = 4) ∧
    ((PongEngine_Update cfg0 0 (some 20) (some 20) inC eC3 a0).1.1.lives = 3 ∧
     (PongEngine_Update cfg0 0 (some 20) (some 20) inC eC3 a0).2 = 3 ∧
     |(PongEngine_Update cfg0 0 (some 20) (some 20) inC eC3 a0).1.1.ball.x -
       Int.tdiv (SCREEN_WIDTH - eC3.ball.size) 2| ≤ 20 ∧
     |(PongEngine_Update cfg0 0 (some 20) (some 20) inC eC3 a0).1.1.ball.y -
       Int.tdiv (SCREEN_HEIGHT - eC3.ball.size) 2| ≤ 20 ∧
     (PongEngine_Update cfg0 0 (some 20) (some 20) inC eC3 a0).1.1.ball.velocity =
       ⟨8 * c707, 8 * c707⟩) :=
  ⟨⟨by with_unfolding_all decide, rfl⟩,
   goal_reset_spec cfg0 0 (some 20) (some 20) inC eC3 a0
     (by with_unfolding_all decide) rfl⟩

/-- C3 counterexample: the ball is past the left edge after the position
update and lives is 4, yet the paddle-collision step repositions it to the
right edge of the paddle, so the goal check does not fire and lives stays
4, refuting the claim for states where the exited ball overlaps the
paddle. -/
theorem goal_paddle_rescue_cex :
    (Ball_Update eC3cex.ball).x < 0 ∧ eC3cex.lives = 4 ∧
    (PongEngine_Update cfg0 0 (some 20) (some 20) inC eC3cex a0).1.1.lives = 4 ∧
    (PongEngine_Update cfg0 0 (some 20) (some 20) inC eC3cex a0).1.1.ball.x = 10 := by
  with_unfolding_all decide

/-- C5 (corrected): lives starts at the constant 4, and as long as it is
positive each update decreases it by at most 1, never increases it, and
PongEngine_Update returns the post-update value; at 0 the counter is
terminal only because the caller stops calling update, since a further
goal would wrap the uint8 counter to 255. -/
theorem lives_monotone (cfg : Buzzer_cfg_t) (now : ℕ) (r1 r2 : Option ℕ)
    (input : UserInput) (e : PongEngine_t) (a : AudioState)
    (hwf : e.lives ≤ 255) (hpos : 1 ≤ e.lives) :
    (PongEngine_Update cfg now r1 r2 input e a).1.1.lives ≤ e.lives ∧
    e.lives - 1 ≤ (PongEngine_Update cfg now r1 r2 input e a).1.1.lives ∧
    (PongEngine_Update cfg now r1 r2 input e a).2 =
      (PongEngine_Update cfg now r1 r2 input e a).1.1.lives ∧
    ∀ px py pw ph bs : ℤ, ∀ spd : ℚ, (PongEngine_Init px py pw ph bs spd).lives = 4 := by
  have hlv := stepPhysics_lives cfg now input e a
  refine ⟨?_, ?_, rfl, fun _ _ _ _ _ _ => rfl⟩ <;>
  · simp only [PongEngine_Update, PongEngine_CheckGoal]
    split_ifs <;> simp only [hlv] <;> omega

/-- C5 witness: a frame from a live state. -/
theorem lives_monotone_witness :
    (eC3.lives ≤ 255 ∧ 1 ≤ eC3.lives) ∧
    ((PongEngine_Update cfg0 0 (some 20) (some 20) inC eC3 a0).1.1.lives ≤ eC3.lives ∧
     eC3.lives - 1 ≤ (PongEngine_Update cfg0 0 (some 20) (some 20) inC eC3 a0).1.1.lives ∧
     (PongEngine_Update cfg0 0 (some 20) (some 20) inC eC3 a0).2 =
       (PongEngine_Update cfg0 0 (some 20) (some 20) inC eC3 a0).1.1.lives ∧
     ∀ px py pw ph bs : ℤ, ∀ spd : ℚ, (PongEngine_Init px py pw ph bs spd).lives = 4) :=
  ⟨⟨by decide, by decide⟩,
   lives_monotone cfg0 0 (some 20) (some 20) inC eC3 a0 (by decide) (by decide)⟩

/-- C5 counterexample: calling update at zero lives when the ball crosses
the left edge wraps the uint8 counter from 0 to 255, so the counter does
increase and 0 is not terminal for the counter itself. -/
theorem lives_wrap_cex :
    eC5.lives = 0 ∧
    (PongEngine_Update cfg0 0 (some 20) (some 20) inC eC5 a0).1.1.lives = 255 := by
  with_unfolding_all decide

theorem neg_diag {q : ℚ} (h : q = 8 * c707 ∨ q = -(8 * c707)) :
    -q = 8 * c707 ∨ -q = -(8 * c707) := by
  rcases h with h | h <;> simp [h]

theorem diagVel_wall (cfg : Buzzer_cfg_t) (now : ℕ) (e : PongEngine_t)
    (a : AudioState) (h : DiagVel e) :
    DiagVel (PongEngine_CheckWallCollision cfg now e a).1 := by
  obtain ⟨hx, hy⟩ := h
  simp only [PongEngine_CheckWallCollision, Ball_SetVelocity]
  split_ifs <;>
    first
      | exact ⟨hx, hy⟩
      | exact ⟨hx, neg_diag hy⟩
      | exact ⟨neg_diag hx, hy⟩

theorem diagVel_paddle (cfg : Buzzer_cfg_t) (now : ℕ) (e : PongEngine_t)
    (a : AudioState) (h : DiagVel e) :
    DiagVel (PongEngine_CheckPaddleCollision cfg now e a).1 := by
  obtain ⟨hx, hy⟩ := h
  simp only [PongEngine_CheckPaddleCollision, Ball_SetVelocity]
  split_ifs <;> first | exact ⟨hx, hy⟩ | exact ⟨neg_diag hx, hy⟩

theorem diagVel_goal (r1 r2 : Option ℕ) (e : PongEngine_t) (h : DiagVel e) :
    DiagVel (PongEngine_CheckGoal r1 r2 e) := by
  obtain ⟨hx, hy⟩ := h
  simp only [PongEngine_CheckGoal, Ball_SetPos, Ball_SetVelocity]
  split_ifs <;> first | exact ⟨hx, hy⟩ | exact ⟨Or.inl rfl, Or.inl rfl⟩

theorem diagVel_update (cfg : Buzzer_cfg_t) (now : ℕ) (r1 r2 : Option ℕ)
    (input : UserInput) (e : PongEngine_t) (a : AudioState) (h : DiagVel e) :
    DiagVel (PongEngine_Update cfg now r1 r2 input e a).1.1 := by
  exact diagVel_goal r1 r2 _ (diagVel_paddle cfg now _ _ (diagVel_wall cfg now _ _ h))

theorem diagVel_run (cfg : Buzzer_cfg_t) (frames : List Frame)
    (ea : PongEngine_t × AudioState) (h : DiagVel ea.1) :
    DiagVel (PongEngine_Run cfg frames ea).1 := by
  induction frames generalizing ea with
  | nil => exact h
  | cons f fs ih =>
    exact ih _ (diagVel_update cfg f.now f.r1 f.r2 f.input ea.1 ea.2 h)

theorem velMagSq_diag (e : PongEngine_t) (h : DiagVel e) :
    velMagSq e = 2 * (8 * c707) ^ 2 := by
  obtain ⟨hx, hy⟩ := h
  simp only [velMagSq]
  rcases hx with hx | hx <;> rcases hy with hy | hy <;> rw [hx, hy] <;> ring

/-- C4 (corrected): for a ball initialised with Ball_Init at the fixed base
speed 8 used by goal resets, the squared velocity magnitude is invariant
under every sequence of PongEngine_Update calls: collisions flip one
component sign and goal resets restore the same fixed diagonal.  Starting
from any other speed a goal reset changes the magnitude, and even at
initialisation the magnitude is the speed scaled by 0.707 times the square
root of 2, not the speed itself. -/
theorem velocity_magnitude_constant (cfg : Buzzer_cfg_t) (frames : List Frame)
    (px py pw ph bs : ℤ) (aud : AudioState) :
    velMagSq (PongEngine_Run cfg frames (PongEngine_Init px py pw ph bs 8, aud)).1 =
      velMagSq (PongEngine_Init px py pw ph bs 8) := by
  have h0 : DiagVel (PongEngine_Init px py pw ph bs 8) := ⟨Or.inl rfl, Or.inl rfl⟩
  rw [velMagSq_diag _ (diagVel_run cfg frames _ h0), velMagSq_diag _ h0]

/-- C4 counterexample: from Ball_Init at speed -320 one update scores a
goal and the goal reset changes the velocity magnitude; moreover already
at initialisation the squared magnitude of a ball at speed 4 differs from
the square of the speed. -/
theorem velocity_magnitude_cex :
    velMagSq (PongEngine_Update cfg0 0 (some 20) (some 20) inC eC4 a0).1.1 ≠
      velMagSq eC4 ∧
    (Ball_Init 10 4).velocity.x ^ 2 + (Ball_Init 10 4).velocity.y ^ 2 ≠ 4 ^ 2 := by
  with_unfolding_all decide

/-- C10 (corrected): a trigger starts the tone immediately and records the
absolute uint32 deadline now plus 40 ms, a later trigger replaces both the
deadline and the frequency, and provided the recorded deadline is not the
idle sentinel 0, a tick silences the tone exactly when the wraparound-safe
signed difference to the deadline is nonnegative and leaves the state
unchanged before that. -/
theorem audio_cue_one_shot (cfg : Buzzer_cfg_t) (a : AudioState) (now f t : ℕ)
    (hf : f ≠ 0) (hstop : (now + BUZZER_BEEP_MS) % u32 ≠ 0) :
    (PongEngine_Beep cfg now f a).buzzer.pwm_started = true ∧
    (PongEngine_Beep cfg now f a).stop_tick = (now + BUZZER_BEEP_MS) % u32 ∧
    (∀ now2 f2 : ℕ, f2 ≠ 0 →
      PongEngine_Beep cfg now2 f2 (PongEngine_Beep cfg now f a) =
        PongEngine_Beep cfg now2 f2 a) ∧
    (usub32 t ((now + BUZZER_BEEP_MS) % u32) < 2 ^ 31 →
      (PongEngine_UpdateBuzzer t (PongEngine_Beep cfg now f a)).buzzer.pwm_started = false ∧
      (PongEngine_UpdateBuzzer t (PongEngine_Beep cfg now f a)).stop_tick = 0) ∧
    (¬ usub32 t ((now + BUZZER_BEEP_MS) % u32) < 2 ^ 31 →
      PongEngine_UpdateBuzzer t (PongEngine_Beep cfg now f a) =
        PongEngine_Beep cfg now f a) := by
  have hcond : ¬ (BUZZER_VOLUME = 0 ∨ f = 0) := by
    push_neg
    exact ⟨by norm_num [BUZZER_VOLUME], hf⟩
  refine ⟨?_, rfl, ?_, ?_, ?_⟩
  · simp [PongEngine_Beep, buzzer_tone, hcond]
  · intro now2 f2 hf2
    have hcond2 : ¬ (BUZZER_VOLUME = 0 ∨ f2 = 0) := by
      push_neg
      exact ⟨by norm_num [BUZZER_VOLUME], hf2⟩
    simp [PongEngine_Beep, buzzer_tone, hcond2]
  · intro hlt
    rw [PongEngine_UpdateBuzzer, if_pos ⟨hstop, hlt⟩]
    exact ⟨rfl, rfl⟩
  · intro hge
    rw [PongEngine_UpdateBuzzer, if_neg]
    rintro ⟨-, hd⟩
    exact hge hd

/-- C10 witness: a trigger at tick 1000 with the wall frequency, checked at
tick 1040. -/
theorem audio_cue_one_shot_witness :
    ((1200 : ℕ) ≠ 0 ∧ (1000 + BUZZER_BEEP_MS) % u32 ≠ 0) ∧
    ((PongEngine_Beep cfg0 1000 1200 a0).buzzer.pwm_started = true ∧
     (PongEngine_Beep cfg0 1000 1200 a0).stop_tick = (1000 + BUZZER_BEEP_MS) % u32 ∧
     (∀ now2 f2 : ℕ, f2 ≠ 0 →
       PongEngine_Beep cfg0 now2 f2 (PongEngine_Beep cfg0 1000 1200 a0) =
         PongEngine_Beep cfg0 now2 f2 a0) ∧
     (usub32 1040 ((1000 + BUZZER_BEEP_MS) % u32) < 2 ^ 31 →
       (PongEngine_UpdateBuzzer 1040 (PongEngine_Beep cfg0 1000 1200 a0)).buzzer.pwm_started
           = false ∧
       (PongEngine_UpdateBuzzer 1040 (PongEngine_Beep cfg0 1000 1200 a0)).stop_tick = 0) ∧
     (¬ usub32 1040 ((1000 + BUZZER_BEEP_MS) % u32) < 2 ^ 31 →
       PongEngine_UpdateBuzzer 1040 (PongEngine_Beep cfg0 1000 1200 a0) =
         PongEngine_Beep cfg0 1000 1200 a0)) :=
  ⟨⟨by decide, by decide⟩,
   audio_cue_one_shot cfg0 a0 1000 1200 1040 (by decide) (by decide)⟩

set_option maxRecDepth 4096 in
/-- C10 counterexample: a trigger at tick 2 to the 32nd power minus 40
computes deadline 0, the idle sentinel, so the tick at time 0, which is
exactly the stop time, does not silence the tone, refuting the claim that
every trigger is silenced at the first tick at or after its stop time. -/
theorem audio_cue_sentinel_cex :
    (PongEngine_Beep cfg0 (u32 - 40) 1200 a0).buzzer.pwm_started = true ∧
    (PongEngine_Beep cfg0 (u32 - 40) 1200 a0).stop_tick = 0 ∧
    usub32 0 ((u32 - 40) + 40) < 2 ^ 31 ∧
    PongEngine_UpdateBuzzer 0 (PongEngine_Beep cfg0 (u32 - 40) 1200 a0) =
      PongEngine_Beep cfg0 (u32 - 40) 1200 a0 := by
  with_unfolding_all decide

set_option maxHeartbeats 1000000 in
set_option maxRecDepth 100000 in
theorem nibble_facts : ∀ c < 16, ∀ b < 256,
    ((((c <<< 4) ||| (b &&& 0x0F)) % 256) &&& 0xF0) >>> 4 = c ∧
    (((c <<< 4) ||| (b &&& 0x0F)) % 256) &&& 0x0F = b &&& 0x0F ∧
    ((c ||| (b &&& 0xF0)) % 256) &&& 0x0F = c ∧
    (((c ||| (b &&& 0xF0)) % 256) &&& 0xF0) >>> 4 = (b &&& 0xF0) >>> 4 := by
  decide

theorem setPixel_track (x y c : ℕ) (s : LCDState) (hy : y < 240) :
    (LCD_Set_Pixel x y c s).track_changes =
      fun r => if r = y then true else s.track_changes r := by
  simp only [LCD_Set_Pixel, trackWrite, bufWrite, ST7789V2_WIDTH, ST7789V2_HEIGHT]
  rw [if_pos hy]
  split_ifs <;> rfl

theorem setPixel_buf (x y c : ℕ) (s : LCDState) (hx : x < 240) (hy : y < 240) :
    (LCD_Set_Pixel x y c s).image_buffer =
      fun j => if j = (240 * y + x) / 2 then
        (if x % 2 = 1 then ((c <<< 4) ||| (s.image_buffer ((240 * y + x) / 2) &&& 0x0F)) % 256
         else (c ||| (s.image_buffer ((240 * y + x) / 2) &&& 0xF0)) % 256)
        else s.image_buffer j := by
  have hidx_eq : ((240 * y + x) >>> 1) % 2 ^ 16 = (240 * y + x) / 2 := by
    rw [Nat.shiftRight_one]
    exact Nat.mod_eq_of_lt (by omega)
  have hidx : (240 * y + x) / 2 < 240 * 240 / 2 := by omega
  simp only [LCD_Set_Pixel, trackWrite, bufWrite, ST7789V2_WIDTH, ST7789V2_HEIGHT,
    BUFFER_LENGTH]
  rw [hidx_eq, if_pos hy, if_pos ⟨hx, hy⟩, if_pos hidx]
  split_ifs <;> rfl

theorem cellAt_eq (s : LCDState) (x y : ℕ) (hx : x < 240) (hy : y < 240) :
    cellAt s x y =
      if x % 2 = 1 then (s.image_buffer ((240 * y + x) / 2) &&& 0xF0) >>> 4
      else s.image_buffer ((240 * y + x) / 2) &&& 0x0F := by
  have hidx_eq : ((240 * y + x) >>> 1) % 2 ^ 16 = (240 * y + x) / 2 := by
    rw [Nat.shiftRight_one]
    exact Nat.mod_eq_of_lt (by omega)
  simp only [cellAt, ST7789V2_WIDTH]
  rw [hidx_eq]

/-- C9 (confirmed): an in-bounds LCD_Set_Pixel marks exactly its own row
dirty, stores the index into the addressed 4-bit cell and leaves every
other in-range cell unchanged; LCD_Set_Palette swaps the active 16-entry
table, marks every row dirty and leaves all stored pixel indices
unchanged. -/
theorem pixel_dirty_and_palette (s : LCDState) (x y c : ℕ) (pal : LCD_Palette)
    (hx : x < 240) (hy : y < 240) (hc : c < 16)
    (hb : ∀ i, s.image_buffer i < 256) :
    ((LCD_Set_Pixel x y c s).track_changes y = true ∧
     (∀ r, r ≠ y → (LCD_Set_Pixel x y c s).track_changes r = s.track_changes r) ∧
     cellAt (LCD_Set_Pixel x y c s) x y = c ∧
     (∀ x2 y2, x2 < 240 → y2 < 240 → ¬(x2 = x ∧ y2 = y) →
       cellAt (LCD_Set_Pixel x y c s) x2 y2 = cellAt s x2 y2)) ∧
    ((∀ r, r < 240 → (LCD_Set_Palette pal s).track_changes r = true) ∧
     (LCD_Set_Palette pal s).image_buffer = s.image_buffer ∧
     (LCD_Set_Palette pal s).colour_map = paletteTable pal) := by
  refine ⟨⟨?_, ?_, ?_, ?_⟩, ?_, rfl, rfl⟩
  · rw [setPixel_track x y c s hy]
    simp
  · intro r hr
    rw [setPixel_track x y c s hy]
    simp [hr]
  · rw [cellAt_eq _ x y hx hy, setPixel_buf x y c s hx hy]
    simp only [if_pos rfl]
    by_cases hpar : x % 2 = 1
    · rw [if_pos hpar, if_pos hpar]
      exact (nibble_facts c hc _ (hb ((240 * y + x) / 2))).1
    · rw [if_neg hpar, if_neg hpar]
      exact (nibble_facts c hc _ (hb ((240 * y + x) / 2))).2.2.1
  · intro x2 y2 hx2 hy2 hne
    rw [cellAt_eq _ x2 y2 hx2 hy2, cellAt_eq s x2 y2 hx2 hy2, setPixel_buf x y c s hx hy]
    simp only []
    by_cases heq : (240 * y2 + x2) / 2 = (240 * y + x) / 2
    · have hLne : 240 * y2 + x2 ≠ 240 * y + x := by
        intro hEq
        exact hne ⟨by omega, by omega⟩
      have hp : x2 % 2 ≠ x % 2 := by omega
      rw [heq, if_pos rfl]
      by_cases hpar : x % 2 = 1
      · have hpar2 : ¬ (x2 % 2 = 1) := by omega
        rw [if_pos hpar, if_neg hpar2, if_neg hpar2]
        exact (nibble_facts c hc _ (hb ((240 * y + x) / 2))).2.1
      · have hpar2 : x2 % 2 = 1 := by omega
        rw [if_neg hpar, if_pos hpar2, if_pos hpar2]
        exact (nibble_facts c hc _ (hb ((240 * y + x) / 2))).2.2.2
    · rw [if_neg heq]
  · intro r hr
    simp [LCD_Set_Palette, hr, ST7789V2_HEIGHT]

/-- C9 witness: a concrete pixel write and palette swap on the reset
state. -/
theorem pixel_dirty_and_palette_witness :
    ((3 : ℕ) < 240 ∧ (7 : ℕ) < 240 ∧ (9 : ℕ) < 16 ∧
     ∀ i, LCD_initial.image_buffer i < 256) ∧
    (((LCD_Set_Pixel 3 7 9 LCD_initial).track_changes 7 = true ∧
      (∀ r, r ≠ 7 →
        (LCD_Set_Pixel 3 7 9 LCD_initial).track_changes r = LCD_initial.track_changes r) ∧
      cellAt (LCD_Set_Pixel 3 7 9 LCD_initial) 3 7 = 9 ∧
      (∀ x2 y2, x2 < 240 → y2 < 240 → ¬(x2 = 3 ∧ y2 = 7) →
        cellAt (LCD_Set_Pixel 3 7 9 LCD_initial) x2 y2 = cellAt LCD_initial x2 y2)) ∧
     ((∀ r, r < 240 →
        (LCD_Set_Palette .PALETTE_GREYSCALE LCD_initial).track_changes r = true) ∧
      (LCD_Set_Palette .PALETTE_GREYSCALE LCD_initial).image_buffer =
        LCD_initial.image_buffer ∧
      (LCD_Set_Palette .PALETTE_GREYSCALE LCD_initial).colour_map =
        paletteTable .PALETTE_GREYSCALE)) :=
  ⟨⟨by decide, by decide, by decide, fun i => by simp [LCD_initial]⟩,
   pixel_dirty_and_palette LCD_initial 3 7 9 .PALETTE_GREYSCALE (by decide) (by decide)
     (by decide) (fun i => by simp [LCD_initial])⟩

end Pong
